import Mathlib

/-!
Verification of the memory/template/process-manager layer of the
automagik-agents repository.

Shallow embedding conventions:
* Python strings are Lean `String` (operated on via `List Char`).
* Python `str.replace` is re-implemented as `pyReplace` (all non-overlapping
  occurrences, scanned left to right), so that every definition reduces in
  the kernel.
* The regex scan `\{\{([a-zA-Z_]+)\}\}` of
  `SimpleAgent._extract_template_variables` is embedded as `scanVarsAux`,
  a fuel-indexed structural scan (fuel = input length) matching the
  non-overlapping, left-to-right, advance-one-on-failure behaviour of
  Python `re.findall`.
* Repository functions that live in `src/db` (not part of the studied
  sources) are modelled from the spec and marked as such in their doc
  comments; fallible repository calls are passed in as `Except` values so
  that the error-handling paths of the callers can be exercised.
-/

set_option maxRecDepth 10000

namespace AutomagikAgents

/-- Python `s.startswith(pre)` on our string embedding. -/
def strStartsWith (s pre : String) : Bool :=
  pre.toList.isPrefixOf s.toList

/-- One left-to-right pass of Python `str.replace`: at each position, if the
pattern matches, emit the replacement and skip past the match, otherwise keep
one character.  Fuel-indexed (fuel = remaining length) so that it is
structural and kernel-reduces. -/
def replaceAux (pat repl : List Char) : Nat → List Char → List Char
  | 0, s => s
  | _ + 1, [] => []
  | fuel + 1, c :: rest =>
    if pat.isPrefixOf (c :: rest) then
      repl ++ replaceAux pat repl fuel ((c :: rest).drop pat.length)
    else
      c :: replaceAux pat repl fuel rest

/-- Python `s.replace(pat, repl)` for a non-empty pattern (all call sites in
the source use placeholders of length at least four). -/
def pyReplace (s pat repl : String) : String :=
  if pat.toList.isEmpty then s
  else (replaceAux pat.toList repl.toList s.toList.length s.toList).asString

/-- The substitution loop of `replace_template_variables`
(src/src/agents/simple/simple_agent/agent.py lines 493-500): fold over the
resolved values, replacing every occurrence of the placeholder of each. -/
def fillTemplate (tmpl : String) (vals : List (String × String)) : String :=
  vals.foldl (fun acc p => pyReplace acc ("\x7b\x7b" ++ p.1 ++ "\x7d\x7d") p.2) tmpl

/-- The try/except wrapper around the substitution loop (agent.py lines
493-504): if the substitution step raises (`substRaises`), the original
unmodified template is returned. -/
def fillTemplateSafe (tmpl : String) (vals : List (String × String)) (substRaises : Bool) : String :=
  if substRaises then tmpl else fillTemplate tmpl vals

/-- Identifier grammar of the template-variable regex `[a-zA-Z_]+`. -/
def isIdentChar (c : Char) : Bool :=
  c.isAlpha || c == '_'

/-- Opening brace character. -/
def lbrace : Char := '\x7b'

/-- Closing brace character. -/
def rbrace : Char := '\x7d'

/-- Attempt to match the regex `\{\{([a-zA-Z_]+)\}\}` at the head of the
input; on success return the captured identifier and the rest of the input
after the match. -/
def tryMatchVar : List Char → Option (String × List Char)
  | c :: c2 :: rest2 =>
    if c == lbrace && c2 == lbrace then
      let ident := rest2.takeWhile isIdentChar
      if ident.isEmpty then none
      else
        match rest2.drop ident.length with
        | d1 :: d2 :: rest3 =>
          if d1 == rbrace && d2 == rbrace then some (ident.asString, rest3) else none
        | _ => none
    else none
  | _ => none

/-- The scan of Python `re.findall(pattern, template)`: try a match at every
position, advancing past a successful match and by one character otherwise.
Fuel-indexed (fuel = input length) to stay structural. -/
def scanVarsAux : Nat → List Char → List String
  | 0, _ => []
  | _ + 1, [] => []
  | fuel + 1, c :: rest =>
    match tryMatchVar (c :: rest) with
    | some p => p.1 :: scanVarsAux fuel p.2
    | none => scanVarsAux fuel rest

/-- `SimpleAgent._extract_template_variables` (agent.py lines 166-177):
`re.findall` of `\{\{([a-zA-Z_]+)\}\}` followed by `list(set(matches))`.
The set conversion is embedded as `dedup` (first-occurrence order). -/
def extract_template_variables (template : String) : List String :=
  (scanVarsAux template.toList.length template.toList).dedup

/-- A memory entry, after the `Memory` model of `src/db/models`, restricted
to the fields the studied code reads and writes. -/
structure Memory where
  name : String
  content : String
  description : Option String
  agent_id : Option Nat
  user_id : Option Nat
  session_id : Option Nat
  read_mode : String
deriving DecidableEq, Repr

/-- An agent row, restricted to its id and its per-agent run counter. -/
structure Agent where
  id : Nat
  run_id : Nat
deriving DecidableEq, Repr

/-- Modelled from the spec: the repository `list(scope, prefix?)` operation
(`list_memories` of `src/db/repository/memory`, which is not under the
studied sources): returns, in the backing store's insertion order, the
entries matching the given name and agent filters. -/
def list_memories (store : List Memory) (agent_id : Option Nat) (name : Option String) : List Memory :=
  store.filter (fun m =>
    (match name with
     | some n => m.name == n
     | none => true) &&
    (match agent_id with
     | some a => m.agent_id == some a
     | none => true))

/-- Modelled from the spec: the repository `getByName(name, scope)` operation
(`get_memory_by_name` of `src/db/repository/memory`, not under the studied
sources): the first entry, in insertion order, matching the name and the
optional agent filter. -/
def get_memory_by_name (store : List Memory) (name : String) (agent_id : Option Nat) : Option Memory :=
  (list_memories store agent_id (some name)).head?

/-- Result shape of `read_memory` (tool.py), restricted to the fields the
claims are about. -/
structure MemoryReadResult where
  success : Bool
  message : String
  content : Option String
deriving DecidableEq, Repr

/-- The lookup-by-name path of `read_memory`
(src/src/tools/memory/tool.py lines 310-328): list the memories for the
agent with the given name and take the first, returning a not-found result
when the list is empty.  The user and session identifiers produced by
`map_agent_id` are in scope in the source but are never passed to the
lookup; they are kept as (unused) parameters to make that visible.  The
store is returned unchanged: this path never creates. -/
def read_memory_by_name (store : List Memory) (agent_id : Option Nat)
    (user_id : Nat) (session_id : Option Nat) (name : String) :
    MemoryReadResult × List Memory :=
  match (list_memories store agent_id (some name)).head? with
  | none => (⟨false, "Memory not found", none⟩, store)
  | some m => (⟨true, "Memory found", some m.content⟩, store)

/-- The concrete-store form of `get_memory_tool`
(src/src/tools/memory/tool.py lines 143-168) on its happy paths: it calls
`db_get_memory_by_name(name=key)` with no agent, user or session filter and
returns the content of the first match, or the not-found message. -/
def get_memory_tool (store : List Memory) (key : String) : String :=
  match get_memory_by_name store key none with
  | some m => m.content
  | none => "Memory with key \x27" ++ key ++ "\x27 not found"

/-- Per-variable curated defaults of `_initialize_memory_variables_sync`
(agent.py lines 206-218), returned as (description, content). -/
def default_memory_content (var_name : String) : String × String :=
  if var_name == "personal_attributes" then
    ("Personal attributes and preferences for the agent",
     "None stored yet. You can update this by asking the agent to remember personal details.")
  else if var_name == "technical_knowledge" then
    ("Technical knowledge and capabilities for the agent",
     "None stored yet. You can update this by asking the agent to remember technical information.")
  else if var_name == "user_preferences" then
    ("User preferences and settings for the agent",
     "None stored yet. You can update this by asking the agent to remember your preferences.")
  else
    ("Auto-created template variable for SimpleAgent", "None stored yet")

/-- `SimpleAgent._initialize_memory_variables_sync` (agent.py lines
179-242): for every template variable except `run_id`, look the name up
under the agent and, when absent, create a global-scope entry with the
curated default description and content (the repository create is modelled
as an insertion-order append). -/
def initialize_memory_variables_sync (db_id : Nat) (template_vars : List String)
    (store : List Memory) : List Memory :=
  (template_vars.filter (fun v => v != "run_id")).foldl
    (fun st v =>
      match get_memory_by_name st v (some db_id) with
      | some _ => st
      | none =>
        let dc := default_memory_content v
        st ++ [⟨v, dc.2, some dc.1, some db_id, none, none, "system_prompt"⟩])
    store

/-- Outcomes of the repository calls made during one template resolution,
passed in so that the error-handling branches of
`replace_template_variables` can be exercised.  `Except.error e` stands for
the call raising an exception with text `e`. -/
structure RepoOracle where
  getMem : String → Except String (Option Memory)
  createMem : String → Except String (Option Nat)
  incRun : Except String Bool
  getAgentRun : Except String (Option Nat)

/-- `get_memory_tool` (tool.py lines 143-168) over oracle outcomes: the
content of the found memory, the not-found message, or — because the
function catches every exception itself — the formatted error message. -/
def get_memory_tool_o (o : RepoOracle) (key : String) : String :=
  match o.getMem key with
  | .ok (some m) => m.content
  | .ok none => "Memory with key \x27" ++ key ++ "\x27 not found"
  | .error e => "Error getting memory with key \x27" ++ key ++ "\x27: " ++ e

/-- The per-variable body of the memory-variable loop of
`replace_template_variables` (agent.py lines 443-482), returning the
substituted value and whether the variable was appended to
`variables_with_errors`.  The content returned by `get_memory_tool` is used
whenever it is non-empty and does not start with "Memory with key";
otherwise, with an agent id available, a runtime create is attempted and
the generic default "None stored yet" is substituted, the variable being
recorded as degraded exactly when the create returned no id or raised. -/
def resolveMemoryVar (db_id : Option Nat) (o : RepoOracle) (var : String) : String × Bool :=
  let content := get_memory_tool_o o var
  if !content.toList.isEmpty && !(strStartsWith content "Memory with key") then
    (content, false)
  else
    match db_id with
    | some _ =>
      match o.createMem var with
      | .ok (some _) => ("None stored yet", false)
      | .ok none => ("None stored yet", true)
      | .error _ => ("None stored yet", true)
    | none => ("None stored yet", true)

/-- The `run_id` block of `replace_template_variables` (agent.py lines
417-439), returning the substituted value and whether `run_id` was recorded
as degraded.  Faithful to the source: the boolean returned by
`increment_agent_run_id` is only logged, never acted on; only an exception
from the increment or the agent read falls back to "1" with degradation;
an agent without a readable counter falls back to "1" without
degradation. -/
def run_id_resolution (db_id : Option Nat) (inc : Except String Bool)
    (getAg : Except String (Option Nat)) : String × Bool :=
  match db_id with
  | none => ("1", false)
  | some _ =>
    match inc with
    | .error _ => ("1", true)
    | .ok _ =>
      match getAg with
      | .error _ => ("1", true)
      | .ok (some rid) => (toString rid, false)
      | .ok none => ("1", false)

/-- The whole `replace_template_variables` handler (agent.py lines
412-504) over oracle outcomes: assemble `template_values` with `run_id`
first and then each non-`run_id` template variable, and fill the template by
literal replacement.  Returns the filled template together with the list of
degraded variables. -/
def replace_template_variables (db_id : Option Nat) (o : RepoOracle)
    (template_vars : List String) (tmpl : String) : String × List String :=
  let rid := run_id_resolution db_id o.incRun o.getAgentRun
  let memvars := template_vars.filter (fun v => v != "run_id")
  let values := ("run_id", rid) :: memvars.map (fun v => (v, resolveMemoryVar db_id o v))
  let degraded := (values.filter (fun p => p.2.2)).map (fun p => p.1)
  (fillTemplate tmpl (values.map (fun p => (p.1, p.2.1))), degraded)

/-- Modelled from the spec: the repository pair `incrementRunCounter` /
`getAgent` over a concrete agent row (`increment_agent_run_id` and
`get_agent` of `src/db/repository`, not under the studied sources).  The
RunCounter is initialized to its base value 1 the first time it is needed
and incremented once per resolution cycle, so an agent whose counter has
never been touched (stored as 0 here) reads back 1 after the first
increment. -/
def increment_agent_run_id (a : Agent) : Bool × Agent :=
  (true, ⟨a.id, a.run_id + 1⟩)

/-- Repository oracle backed by a concrete store and agent row: the get is
`get_memory_by_name` with no agent filter (exactly the call
`db_get_memory_by_name(name=key)` of `get_memory_tool`), the create
succeeds with a fresh id, and the run-counter calls succeed, the read
observing the incremented counter. -/
def storeOracle (store : List Memory) (a : Agent) : RepoOracle :=
  ⟨fun key => .ok (get_memory_by_name store key none),
   fun _ => .ok (some (store.length + 1)),
   .ok (increment_agent_run_id a).1,
   .ok (some (increment_agent_run_id a).2.run_id)⟩

/-- The end-to-end template of spec §8's scenario. -/
def example_template : String :=
  "User notes: \x7b\x7bpersonal_attributes\x7d\x7d. Run #\x7b\x7brun_id\x7d\x7d."

/-- Store obtained by initializing the memory variables of
`example_template` for agent 7 over an empty store. -/
def c2_store : List Memory :=
  initialize_memory_variables_sync 7 (extract_template_variables example_template) []

/-- The filled prompt of spec §8's scenario: initialize the memory
variables for agent 7 (as `run` does through
`_check_and_ensure_memory_variables`), then resolve `example_template`
against the resulting store with a fresh run counter. -/
def c2_filled : String :=
  (replace_template_variables (some 7) (storeOracle c2_store ⟨7, 0⟩)
    (extract_template_variables example_template) example_template).1

/-- State of the `PlaywrightMCPTools` handle (browser_tools.py): whether a
playwright entry is present in the loaded configuration, the subprocess
handle (`self.process`), the discovered URL (`self.server_url`), and a
count of how many processes have been spawned so far (to make re-spawning
observable). -/
structure PlaywrightState where
  configured : Bool
  process : Option Nat
  server_url : Option String
  spawnCount : Nat
deriving DecidableEq, Repr

/-- The state of a freshly constructed handle (`__init__`): no process, no
URL, nothing spawned. -/
def init_state (configured : Bool) : PlaywrightState :=
  ⟨configured, none, none, 0⟩

/-- `PlaywrightMCPTools.start_server` (browser_tools.py lines 40-72).  The
spawn outcome is passed in: `Except.error` stands for `subprocess.Popen`
raising, `Except.ok pid` for a successful launch.  Faithful to the source:
there is no check of the current process state — whenever the configuration
is present and the spawn succeeds, a new process is launched (spawn count
incremented, handle overwritten) and the fixed URL
"http://localhost:8931/sse" is recorded. -/
def start_server (st : PlaywrightState) (spawn : Except String Nat) : Bool × PlaywrightState :=
  if st.configured = false then (false, st)
  else
    match spawn with
    | .error _ => (false, st)
    | .ok pid =>
      (true, ⟨st.configured, some pid, some "http://localhost:8931/sse", st.spawnCount + 1⟩)

/-- Outcome of the terminate/wait attempt inside `stop_server`:
the process exited within the 5-second wait; the wait raised (timeout) and
the subsequent kill succeeded; or the wait raised and the kill raised too
(swallowed by the inner bare except). -/
inductive WaitOutcome
  | exited
  | timeoutKillOk
  | timeoutKillRaises
deriving DecidableEq, Repr

/-- The grace period passed to `self.process.wait(timeout=5)`. -/
def stop_wait_timeout : Nat := 5

/-- `PlaywrightMCPTools.stop_server` (browser_tools.py lines 74-89).
Faithful to the source: with no process handle it returns True; on a
graceful exit within the wait it returns True; when the wait raises it
kills the process and returns False whether or not the kill succeeded.  No
branch clears `self.process` or `self.server_url`. -/
def stop_server (st : PlaywrightState) (w : WaitOutcome) : Bool × PlaywrightState :=
  match st.process with
  | none => (true, st)
  | some _ =>
    match w with
    | .exited => (true, st)
    | .timeoutKillOk => (false, st)
    | .timeoutKillRaises => (false, st)

/-- `PlaywrightMCPTools.get_server_url` (browser_tools.py lines 168-170):
returns `self.server_url`. -/
def get_server_url (st : PlaywrightState) : Option String :=
  st.server_url

/-- Modelled from the spec: `validate_memory_name` lives in
`src/tools/memory/interface.py`, which is not under the studied sources;
the rule is taken from the error message `create_memory` itself emits:
"Names must contain only letters, numbers, and underscores."  (Note the
rule admits digits, unlike the `[a-zA-Z_]+` template-variable grammar.) -/
def validate_memory_name (name : String) : Bool :=
  !name.toList.isEmpty && name.toList.all (fun c => c.isAlpha || c.isDigit || c == '_')

/-- Result shape of `create_memory` (tool.py), restricted to the fields the
claims are about. -/
structure MemoryCreateResponse where
  success : Bool
  message : String
  id : Option String
  name : Option String
deriving DecidableEq, Repr

/-- The scope-to-identifiers mapping of `create_memory` (tool.py lines
389-405): global clears both identifiers, user keeps the user only, session
keeps both, anything else defaults to user scope. -/
def scopeToIds (scope : Option String) (user_id : Nat) (session_id : Option Nat) :
    Option Nat × Option Nat :=
  if scope == some "global" then (none, none)
  else if scope == some "user" then (some user_id, none)
  else if scope == some "session" then (some user_id, session_id)
  else (some user_id, none)

/-- `create_memory` (tool.py lines 353-455) on its validation and happy
paths: an invalid name short-circuits with a failure response naming the
name, before any repository call, leaving the store untouched; otherwise
the entry is created at the scope implied by the `scope` argument (the
repository create is modelled as an insertion-order append returning a
fresh id). -/
def create_memory_op (store : List Memory) (agent_id : Option Nat) (user_id : Nat)
    (session_id : Option Nat) (name content : String) (description : Option String)
    (read_mode : String) (scope : Option String) : MemoryCreateResponse × List Memory :=
  if !validate_memory_name name then
    (⟨false,
      "Invalid memory name: " ++ name ++ ". Names must contain only letters, numbers, and underscores.",
      none, none⟩, store)
  else
    let ids := scopeToIds scope user_id session_id
    let mem : Memory := ⟨name, content, description, agent_id, ids.1, ids.2, read_mode⟩
    (⟨true, "Memory created successfully", some (toString (store.length + 1)), some name⟩,
     store ++ [mem])

/-- First entry of the backing store, in insertion order, matching the name
under the given agent filter; the value `read_memory`'s lookup is
characterized by. -/
def firstMatch (store : List Memory) (agent_id : Option Nat) (name : String) : Option Memory :=
  (list_memories store agent_id (some name)).head?

/-- Store of the scope-precedence counterexample: the same name at global,
user and session scope under agent 7, inserted in that order. -/
def c1_store : List Memory :=
  [⟨"mood", "global entry", none, some 7, none, none, "tool_calling"⟩,
   ⟨"mood", "user entry", none, some 7, some 1, none, "tool_calling"⟩,
   ⟨"mood", "session entry", none, some 7, some 1, some 5, "tool_calling"⟩]

/-- Oracle whose memory get always raises with the given message, while
creates and run-counter calls succeed; used to exercise the read-failure
path of the memory-variable loop. -/
def failingGetOracle (msg : String) : RepoOracle :=
  ⟨fun _ => .error msg, fun _ => .ok (some 1), .ok true, .ok (some 1)⟩

/-- A handle on which one process has already been started. -/
def running_state : PlaywrightState :=
  ⟨true, some 11, some "http://localhost:8931/sse", 1⟩

/-- Names captured by `tryMatchVar` are non-empty and drawn from the
identifier grammar `[a-zA-Z_]+`. -/
theorem tryMatchVar_grammar {s : List Char} {p : String × List Char}
    (h : tryMatchVar s = some p) : p.1.toList ≠ [] ∧ p.1.toList.all isIdentChar := by
  match s with
  | [] => simp [tryMatchVar] at h
  | [c] => simp [tryMatchVar] at h
  | c :: c2 :: rest2 =>
    simp only [tryMatchVar] at h
    split at h
    · split at h
      · simp at h
      · rename_i hne
        split at h
        · split at h
          · rename_i d1 d2 rest3 hbr
            injection h with h2
            subst h2
            constructor
            · intro hc
              apply hne
              have hroundtrip :
                  (rest2.takeWhile isIdentChar).asString.toList = rest2.takeWhile isIdentChar := rfl
              rw [hroundtrip] at hc
              simp [hc]
            · have hroundtrip :
                  (rest2.takeWhile isIdentChar).asString.toList = rest2.takeWhile isIdentChar := rfl
              rw [hroundtrip]
              exact List.all_eq_true.2 fun x hx => List.mem_takeWhile_imp hx
          · simp at h
        · simp at h
    · simp at h

/-- Every name emitted by the scan is non-empty and drawn from the
identifier grammar `[a-zA-Z_]+`. -/
theorem scanVarsAux_grammar : ∀ (fuel : Nat) (s : List Char) (n : String),
    n ∈ scanVarsAux fuel s → n.toList ≠ [] ∧ n.toList.all isIdentChar := by
  intro fuel
  induction fuel with
  | zero => intro s n h; simp [scanVarsAux] at h
  | succ k ih =>
    intro s n h
    match s with
    | [] => simp [scanVarsAux] at h
    | c :: rest =>
      simp only [scanVarsAux] at h
      cases htm : tryMatchVar (c :: rest) with
      | none => rw [htm] at h; exact ih rest n h
      | some p =>
        rw [htm] at h
        cases h with
        | head => exact tryMatchVar_grammar htm
        | tail _ h2 => exact ih p.2 n h2

/-- When the repository get raises, `get_memory_tool`'s formatted error text
is non-empty, does not start with "Memory with key", and is therefore
substituted as the variable's value with no degradation recorded. -/
theorem errText_resolve (d : Option Nat) (o : RepoOracle) (v e : String)
    (h : o.getMem v = Except.error e) :
    resolveMemoryVar d o v =
      ("Error getting memory with key \x27" ++ v ++ "\x27: " ++ e, false) := by
  have hempty :
      ("Error getting memory with key \x27" ++ v ++ "\x27: " ++ e).toList.isEmpty = false := rfl
  have hpre : strStartsWith ("Error getting memory with key \x27" ++ v ++ "\x27: " ++ e)
      "Memory with key" = false := rfl
  simp only [resolveMemoryVar, get_memory_tool_o, h]
  rw [hempty, hpre]
  rfl

/-- C1 counterexample: with entries for the name "mood" at global, user and
session scope under agent 7 (inserted in that order), the lookup under the
session context (user 1, session 5) returns the global entry — the first
match in insertion order — not the session entry the claim requires. -/
theorem read_memory_scope_precedence_cex :
    (read_memory_by_name c1_store (some 7) 1 (some 5) "mood").1.content = some "global entry" ∧
    (∃ m ∈ c1_store, m.session_id = some 5 ∧ m.content = "session entry") ∧
    some "global entry" ≠ (some "session entry" : Option String) := by
  decide

/-- C1 (amended): the lookup by name returns the first entry of the backing
store, in insertion order, matching the name under the agent filter —
independently of the user/session context — succeeding exactly when such an
entry exists, and never modifies the store (returns NotFound without
creating). -/
theorem read_memory_first_match_amended :
    ∀ (store : List Memory) (aid : Option Nat) (uid : Nat) (sid : Option Nat) (nm : String),
      (read_memory_by_name store aid uid sid nm).2 = store ∧
      (read_memory_by_name store aid uid sid nm).1.success = (firstMatch store aid nm).isSome ∧
      (read_memory_by_name store aid uid sid nm).1.content =
        (firstMatch store aid nm).map Memory.content ∧
      read_memory_by_name store aid uid sid nm = read_memory_by_name store aid 0 none nm := by
  intro store aid uid sid nm
  unfold read_memory_by_name firstMatch
  cases (list_memories store aid (some nm)).head? <;> simp

/-- C2: resolving the template "User notes: {{personal_attributes}}. Run
#{{run_id}}." for agent 7 over an empty store auto-creates
`personal_attributes` with its curated default text, resolves `run_id` to
"1", and fills the template to exactly the expected string. -/
theorem end_to_end_scenario_spec :
    c2_filled = "User notes: None stored yet. You can update this by asking the agent to remember personal details.. Run #1." ∧
    get_memory_by_name c2_store "personal_attributes" (some 7) =
      some ⟨"personal_attributes",
        "None stored yet. You can update this by asking the agent to remember personal details.",
        some "Personal attributes and preferences for the agent",
        some 7, none, none, "system_prompt"⟩ ∧
    run_id_resolution (some 7) (storeOracle c2_store ⟨7, 0⟩).incRun
      (storeOracle c2_store ⟨7, 0⟩).getAgentRun = ("1", false) := by
  refine ⟨by decide, by decide, rfl⟩

/-- C3 counterexample: when the increment reports failure without raising
(`increment_agent_run_id` returns False), the code still substitutes the
agent's current counter value ("5" here) and records no degradation — not
the fallback "1" with degradation the claim requires. -/
theorem run_id_increment_failure_cex :
    run_id_resolution (some 7) (Except.ok false) (Except.ok (some 5)) = ("5", false) ∧
    run_id_resolution (some 7) (Except.ok false) (Except.ok (some 5)) ≠ ("1", true) := by
  decide

/-- C3 (amended): `run_id` resolution substitutes the repository's counter
value as a string whenever the agent read succeeds, regardless of the
boolean the increment returned; only an exception from the increment or the
read substitutes the fallback "1" and records `run_id` as degraded; a
missing agent id or an unreadable counter substitutes "1" without
degradation; and over the concrete repository model the incremented value
is the old counter plus one. -/
theorem run_id_resolution_amended :
    (∀ (inc : Except String Bool) (g : Except String (Option Nat)),
      run_id_resolution none inc g = ("1", false)) ∧
    (∀ (a : Nat) (e : String) (g : Except String (Option Nat)),
      run_id_resolution (some a) (Except.error e) g = ("1", true)) ∧
    (∀ (a : Nat) (b : Bool) (e : String),
      run_id_resolution (some a) (Except.ok b) (Except.error e) = ("1", true)) ∧
    (∀ (a : Nat) (b : Bool) (rid : Nat),
      run_id_resolution (some a) (Except.ok b) (Except.ok (some rid)) = (toString rid, false)) ∧
    (∀ (a : Nat) (b : Bool),
      run_id_resolution (some a) (Except.ok b) (Except.ok none) = ("1", false)) ∧
    (∀ (store : List Memory) (ag : Agent) (a : Nat),
      run_id_resolution (some a) (storeOracle store ag).incRun (storeOracle store ag).getAgentRun =
        (toString (ag.run_id + 1), false)) :=
  ⟨fun _ _ => rfl, fun _ _ _ => rfl, fun _ _ _ => rfl, fun _ _ _ => rfl, fun _ _ => rfl,
   fun _ _ _ => rfl⟩

/-- C4 counterexample: when the repository get raises for variable "x", the
substituted value is the formatted error text, not the generic default, and
the variable is not recorded as degraded — contradicting the claim that
every repository failure substitutes the generic default and records
degradation. -/
theorem memory_var_read_failure_cex :
    resolveMemoryVar (some 7) (failingGetOracle "boom") "x" =
      ("Error getting memory with key \x27x\x27: boom", false) ∧
    resolveMemoryVar (some 7) (failingGetOracle "boom") "x" ≠ ("None stored yet", true) := by
  decide

/-- C4 (amended): per-variable resolution never aborts.  When the read
reports not-found and the runtime create fails (raises or returns no id),
the generic default "None stored yet" is substituted and the variable
recorded as degraded; when the create succeeds the default is substituted
without degradation; but when the read itself raises, the formatted error
text is substituted as the value with no degradation recorded.  In every
case a filled template string is still produced, as the concrete
failing-read pipeline run shows. -/
theorem memory_var_degradation_amended :
    (∀ (d : Nat) (o : RepoOracle) (v e : String), o.getMem v = Except.ok none →
      o.createMem v = Except.error e →
      resolveMemoryVar (some d) o v = ("None stored yet", true)) ∧
    (∀ (d : Nat) (o : RepoOracle) (v : String), o.getMem v = Except.ok none →
      o.createMem v = Except.ok none →
      resolveMemoryVar (some d) o v = ("None stored yet", true)) ∧
    (∀ (d : Nat) (o : RepoOracle) (v : String) (i : Nat), o.getMem v = Except.ok none →
      o.createMem v = Except.ok (some i) →
      resolveMemoryVar (some d) o v = ("None stored yet", false)) ∧
    (∀ (d : Option Nat) (o : RepoOracle) (v e : String), o.getMem v = Except.error e →
      resolveMemoryVar d o v =
        ("Error getting memory with key \x27" ++ v ++ "\x27: " ++ e, false)) ∧
    (replace_template_variables (some 7) (failingGetOracle "boom")
        (extract_template_variables "Hi \x7b\x7bx\x7d\x7d") "Hi \x7b\x7bx\x7d\x7d").1 =
      "Hi Error getting memory with key \x27x\x27: boom" := by
  refine ⟨?_, ?_, ?_, errText_resolve, by decide⟩
  · intro d o v e hg hc
    have hnf : strStartsWith ("Memory with key \x27" ++ v ++ "\x27 not found") "Memory with key" = true := rfl
    simp only [resolveMemoryVar, get_memory_tool_o, hg, hc, hnf]
    rfl
  · intro d o v hg hc
    have hnf : strStartsWith ("Memory with key \x27" ++ v ++ "\x27 not found") "Memory with key" = true := rfl
    simp only [resolveMemoryVar, get_memory_tool_o, hg, hc, hnf]
    rfl
  · intro d o v i hg hc
    have hnf : strStartsWith ("Memory with key \x27" ++ v ++ "\x27 not found") "Memory with key" = true := rfl
    simp only [resolveMemoryVar, get_memory_tool_o, hg, hc, hnf]
    rfl

/-- Witness for the amended C4 theorem at concrete inputs: a not-found read
followed by a raising create yields the degraded default, and a raising
read yields the undegraded error text. -/
theorem memory_var_degradation_amended_witness :
    resolveMemoryVar (some 7)
      (⟨fun _ => Except.ok none, fun _ => Except.error "down", Except.ok true, Except.ok none⟩ :
        RepoOracle) "y" = ("None stored yet", true) ∧
    resolveMemoryVar (some 7) (failingGetOracle "boom") "y" =
      ("Error getting memory with key \x27y\x27: boom", false) :=
  ⟨memory_var_degradation_amended.1 7
      (⟨fun _ => Except.ok none, fun _ => Except.error "down", Except.ok true, Except.ok none⟩ :
        RepoOracle) "y" "down" rfl rfl,
   memory_var_degradation_amended.2.2.2.1 (some 7) (failingGetOracle "boom") "y" "boom" rfl⟩

/-- C5 counterexample: starting a handle whose process is already running
spawns a second process — the spawn count rises from 1 to 2 and the handle
is overwritten — contradicting the claimed no-op. -/
theorem start_server_respawns_cex :
    running_state.process = some 11 ∧ running_state.spawnCount = 1 ∧
    (start_server running_state (Except.ok 22)).2.spawnCount = 2 ∧
    (start_server running_state (Except.ok 22)).2.process = some 22 := by
  decide

/-- C5 (amended): `start_server` has no already-running guard.  Whenever the
configuration is present and the spawn succeeds it launches a new process —
even if one is already running — overwriting the handle, recording the
fixed endpoint URL and returning True; it returns False leaving the state
unchanged when the configuration is missing or the spawn raises. -/
theorem start_server_always_spawns (st : PlaywrightState) (pid : Nat) (e : String) :
    (st.configured = true →
      start_server st (Except.ok pid) =
        (true, ⟨true, some pid, some "http://localhost:8931/sse", st.spawnCount + 1⟩)) ∧
    (st.configured = false → start_server st (Except.ok pid) = (false, st)) ∧
    start_server st (Except.error e) = (false, st) := by
  refine ⟨fun h => ?_, fun h => ?_, ?_⟩
  · simp [start_server, h]
  · simp [start_server, h]
  · unfold start_server
    cases st.configured <;> simp

/-- Witness for the amended C5 theorem: a configured fresh handle spawns and
records the URL; an unconfigured handle refuses. -/
theorem start_server_always_spawns_witness :
    start_server (init_state true) (Except.ok 3) =
      (true, ⟨true, some 3, some "http://localhost:8931/sse", 1⟩) ∧
    start_server (init_state false) (Except.ok 3) = (false, init_state false) :=
  ⟨(start_server_always_spawns (init_state true) 3 "e").1 rfl,
   (start_server_always_spawns (init_state false) 3 "e").2.1 rfl⟩

/-- C6 counterexample: on a running handle whose wait times out and whose
kill succeeds — the process ended forcibly — `stop_server` returns False,
contradicting the claim that it returns true whenever the process ended
gracefully or forcibly. -/
theorem stop_server_forced_kill_cex :
    running_state.process ≠ none ∧
    (stop_server running_state WaitOutcome.timeoutKillOk).1 = false := by
  decide

/-- C6 (amended): `stop_server` waits up to the 5-second grace period and
returns True exactly when the process exits within it (or the handle was
already stopped, a no-op success); on timeout it force-kills but returns
False whether or not the kill succeeded; no branch mutates the handle
state. -/
theorem stop_server_graceful_only (st : PlaywrightState) (w : WaitOutcome) :
    (st.process = none → stop_server st w = (true, st)) ∧
    (st.process ≠ none → ((stop_server st w).1 = true ↔ w = WaitOutcome.exited)) ∧
    (stop_server st w).2 = st ∧
    stop_wait_timeout = 5 := by
  refine ⟨fun h => ?_, fun h => ?_, ?_, rfl⟩
  · simp [stop_server, h]
  · unfold stop_server
    cases hp : st.process with
    | none => exact absurd hp h
    | some p => cases w <;> simp
  · unfold stop_server
    cases st.process with
    | none => rfl
    | some p => cases w <;> rfl

/-- Witness for the amended C6 theorem: stopping an already-stopped handle
succeeds even on the timeout outcome, and a running handle's graceful exit
returns True. -/
theorem stop_server_graceful_only_witness :
    stop_server (init_state true) WaitOutcome.timeoutKillOk = (true, init_state true) ∧
    ((stop_server running_state WaitOutcome.exited).1 = true ↔
      WaitOutcome.exited = WaitOutcome.exited) :=
  ⟨(stop_server_graceful_only (init_state true) WaitOutcome.timeoutKillOk).1 rfl,
   (stop_server_graceful_only running_state WaitOutcome.exited).2.1 (by decide)⟩

/-- C7: `extract_template_variables` returns a deduplicated list whose
every element is a non-empty identifier over letters and underscores; on
the example template it returns exactly the names "name" and "run_id"; and
the output is already deduplicated (idempotent under further
deduplication). -/
theorem extract_template_variables_spec :
    (∀ t : String, (extract_template_variables t).Nodup) ∧
    (∀ (t n : String), n ∈ extract_template_variables t →
      n.toList ≠ [] ∧ n.toList.all isIdentChar) ∧
    extract_template_variables "Hello \x7b\x7bname\x7d\x7d, today is \x7b\x7brun_id\x7d\x7d." =
      ["name", "run_id"] ∧
    (∀ t : String, (extract_template_variables t).dedup = extract_template_variables t) := by
  refine ⟨fun t => List.nodup_dedup _, fun t n h => ?_, by decide, fun t => List.dedup_idem⟩
  exact scanVarsAux_grammar _ _ n (List.mem_dedup.1 h)

/-- Witness for the C7 theorem: the name "name" extracted from the example
template is non-empty and drawn from the identifier grammar. -/
theorem extract_template_variables_spec_witness :
    "name".toList ≠ [] ∧ "name".toList.all isIdentChar :=
  extract_template_variables_spec.2.1
    "Hello \x7b\x7bname\x7d\x7d, today is \x7b\x7brun_id\x7d\x7d." "name" (by decide)

/-- C8: substitution is literal replacement of every placeholder occurrence
(single-variable fill is exactly string replace of the braced name, and
both occurrences of a repeated placeholder are replaced); when the
substitution step raises, the original unmodified template is returned; in
no case does the (total) resolution propagate a failure. -/
theorem fill_template_literal_and_fallback :
    (∀ (tmpl : String) (vals : List (String × String)), fillTemplateSafe tmpl vals true = tmpl) ∧
    (∀ (tmpl : String) (vals : List (String × String)),
      fillTemplateSafe tmpl vals false = fillTemplate tmpl vals) ∧
    (∀ (tmpl n v : String),
      fillTemplate tmpl [(n, v)] = pyReplace tmpl ("\x7b\x7b" ++ n ++ "\x7d\x7d") v) ∧
    fillTemplate "Hi \x7b\x7bname\x7d\x7d, bye \x7b\x7bname\x7d\x7d" [("name", "Bob")] =
      "Hi Bob, bye Bob" :=
  ⟨fun _ _ => rfl, fun _ _ => rfl, fun _ _ _ => rfl, by decide⟩

/-- C9 counterexample: after a start followed by a successful graceful
stop, `get_server_url` still returns the discovered URL — `stop_server`
never clears it — contradicting the claim that the endpoint is none when
currently stopped. -/
theorem endpoint_survives_stop_cex :
    (stop_server (start_server (init_state true) (Except.ok 7)).2 WaitOutcome.exited).1 = true ∧
    get_server_url
      (stop_server (start_server (init_state true) (Except.ok 7)).2 WaitOutcome.exited).2 =
      some "http://localhost:8931/sse" ∧
    get_server_url
      (stop_server (start_server (init_state true) (Except.ok 7)).2 WaitOutcome.exited).2 ≠ none := by
  decide

/-- C9 (amended): `get_server_url` returns the last discovered URL; it is
none on a never-started handle; a successful start records the fixed URL;
and stopping never changes it (so after a stop it still returns the last
URL). -/
theorem get_server_url_amended (c : Bool) (st : PlaywrightState) (w : WaitOutcome) (pid : Nat) :
    get_server_url (init_state c) = none ∧
    get_server_url (stop_server st w).2 = get_server_url st ∧
    (st.configured = true →
      get_server_url (start_server st (Except.ok pid)).2 = some "http://localhost:8931/sse") := by
  refine ⟨rfl, ?_, fun h => ?_⟩
  · unfold stop_server
    cases st.process with
    | none => rfl
    | some p => cases w <;> rfl
  · simp [start_server, get_server_url, h]

/-- Witness for the amended C9 theorem: a configured fresh handle exposes
the fixed URL after a successful start. -/
theorem get_server_url_amended_witness :
    get_server_url (start_server (init_state true) (Except.ok 9)).2 =
      some "http://localhost:8931/sse" :=
  (get_server_url_amended true (init_state true) WaitOutcome.exited 9).2.2 rfl

/-- C10: `create_memory` with a name failing the validation rule (letters,
numbers and underscores only) returns success = false with a message naming
the invalid name, and performs no repository create — the store is
unchanged.  The rule admits digits ("abc123" is valid) while the
template-variable grammar does not ("{{ab1}}" extracts nothing). -/
theorem create_memory_invalid_name (store : List Memory) (agent_id : Option Nat)
    (user_id : Nat) (session_id : Option Nat) (nm content : String)
    (description : Option String) (read_mode : String) (scope : Option String)
    (h : validate_memory_name nm = false) :
    (create_memory_op store agent_id user_id session_id nm content description read_mode scope).1.success = false ∧
    (create_memory_op store agent_id user_id session_id nm content description read_mode scope).1.message =
      "Invalid memory name: " ++ nm ++ ". Names must contain only letters, numbers, and underscores." ∧
    (create_memory_op store agent_id user_id session_id nm content description read_mode scope).2 = store ∧
    validate_memory_name "abc123" = true ∧
    extract_template_variables "\x7b\x7bab1\x7d\x7d" = [] := by
  refine ⟨?_, ?_, ?_, by decide, by decide⟩ <;> simp [create_memory_op, h]

/-- Witness for the C10 theorem at the concrete invalid name "bad-name": the
create fails with the expected message and the store stays empty. -/
theorem create_memory_invalid_name_witness :
    validate_memory_name "bad-name" = false ∧
    (create_memory_op [] (some 7) 1 none "bad-name" "c" none "tool_calling" none).1.success = false ∧
    (create_memory_op [] (some 7) 1 none "bad-name" "c" none "tool_calling" none).1.message =
      "Invalid memory name: bad-name. Names must contain only letters, numbers, and underscores." ∧
    (create_memory_op [] (some 7) 1 none "bad-name" "c" none "tool_calling" none).2 = [] := by
  have h := create_memory_invalid_name [] (some 7) 1 none "bad-name" "c" none "tool_calling" none
    (by decide)
  exact ⟨by decide, h.1, by rw [h.2.1]; decide, h.2.2.1⟩

end AutomagikAgents
